import Mathlib

/-!
Shallow embedding of the WorldSim procedural world-generation core
(`WorldGenerator` and `ClimateSystem`) and proofs about the specified
properties of the pipeline.

Modelling conventions:
* JavaScript numbers are modelled as rationals (`ℚ`).  The transcendental
  functions of the ambient `Math` object (`cos`, `sin`, `sqrt`, `PI`) are
  abstracted into a `MathLib` record of rational functions, since the
  pipeline's control flow and range behaviour depend on them only through
  their documented ranges.  A separate real-number model of
  `calculateInsolation` (`calculateInsolationReal`, over `Real.cos`) is used
  for the trigonometric facts about the insolation formula itself.
* The h3-js grid library is abstracted as an `H3Lib` record providing the
  four operations the generator calls (`getRes0Cells`, `cellToChildren`,
  `cellToLatLng`, and `gridDisk` at ring radius 1, the only radius used).
* The simplex-noise `noise3D` sampler is an explicit function parameter;
  the library guarantees values in `[-1, 1]`, carried as a hypothesis.
* `Math.random()` is modelled as an explicit stream `rng : ℕ → ℚ`, consumed
  in call order (index 0 is the first draw made by a `generateWorld` call);
  the real generator draws values in `[0, 1)`, carried as a hypothesis
  where needed.
* JavaScript `Map` objects are modelled as functions `String → Option ℚ`
  built by successive overwrite, and the `Set` of river cells as a
  `Finset String` (set insertion is idempotent in both).
-/

/-- The ambient `Math` object's transcendental functions, abstracted. -/
structure MathLib where
  cos : ℚ → ℚ
  sin : ℚ → ℚ
  sqrt : ℚ → ℚ
  pi : ℚ

/-- The h3-js operations consumed by the generator.  `gridDisk` is the
1-ring disk (the only ring radius the source calls it with). -/
structure H3Lib where
  getRes0Cells : List String
  cellToChildren : String → ℕ → List String
  cellToLatLng : String → ℚ × ℚ
  gridDisk : String → List String

/-- A decoded grayscale height-map image: canvas pixel data is a byte per
channel, so sampling yields values in `Fin 256`. -/
structure Raster where
  width : ℤ
  height : ℤ
  pixel : ℤ → ℤ → Fin 256

/-- Intermediate per-cell record of the first (elevation) pass. -/
structure CellInfo where
  h3Index : String
  lat : ℚ
  lon : ℚ
  height : ℚ
  deriving DecidableEq, Inhabited

/-- The `CellData` record returned by `generateWorld`. -/
structure CellData where
  h3Index : String
  lat : ℚ
  lon : ℚ
  height : ℚ
  temperature : ℚ
  moisture : ℚ
  biome : String
  isRiver : Bool
  deriving DecidableEq, Inhabited

/-- The `generationMethod` union type `'noise' | 'tectonic'`. -/
inductive GenMethod where
  | noise
  | tectonic
  deriving DecidableEq, Inhabited

/-- `ClimateSystem.calculateInsolation`, with `Math.cos` and `Math.PI`
abstracted into `m`.  The `_tilt` parameter is accepted and unused, as in
the source. -/
def calculateInsolation (m : MathLib) (lat lon _tilt sunlight rotationPeriod orbitalPeriod : ℚ) : ℚ :=
  if |rotationPeriod - orbitalPeriod| < 0.1 then
    let latRad := lat * m.pi / 180
    let lonRad := lon * m.pi / 180
    let dot := m.cos latRad * m.cos lonRad
    max 0 dot * sunlight
  else
    let latRad := lat * m.pi / 180
    m.cos latRad * sunlight

/-- `ClimateSystem.calculateTemperature`. -/
def calculateTemperature (insolation height seaLevel : ℚ) : ℚ :=
  let temp := -20 + insolation * 50
  if height > seaLevel then temp - (height - seaLevel) * 80 else temp

/-- `ClimateSystem.calculateMoisture`. -/
def calculateMoisture (m : MathLib) (lat height seaLevel rotationSpeed : ℚ) : ℚ :=
  let cellWidth := 30 / m.sqrt rotationSpeed
  let latAbs := |lat|
  let phase := latAbs / cellWidth * m.pi
  let base0 := (m.cos phase + 1) / 2
  let base1 := base0 * 0.8 + 0.1
  let base2 := if height > seaLevel then base1 + (height - seaLevel) * 0.5 else base1
  min 1 (max 0 base2)

/-- `ClimateSystem.determineBiome`. -/
def determineBiome (temp moisture height seaLevel : ℚ) : String :=
  if height ≤ seaLevel then "OCEAN"
  else if temp < -5 then "ICE"
  else if temp < 5 then "TUNDRA"
  else if temp > 20 then
    if moisture > 0.8 then "TROPICAL_RAINFOREST"
    else if moisture > 0.4 then "SAVANNA"
    else "DESERT"
  else if temp > 10 then
    if moisture > 0.6 then "TEMPERATE_FOREST"
    else if moisture > 0.3 then "GRASSLAND"
    else "DESERT"
  else if moisture > 0.5 then "TAIGA"
  else "TUNDRA"

/-- `WorldGenerator.getNoise`: three octaves of 3D noise sampled on the
unit sphere. -/
def getNoise (m : MathLib) (noise3D : ℚ → ℚ → ℚ → ℚ) (lat lon : ℚ) : ℚ :=
  let r : ℚ := 1
  let cosLat := m.cos (lat * m.pi / 180)
  let sinLat := m.sin (lat * m.pi / 180)
  let cosLon := m.cos (lon * m.pi / 180)
  let sinLon := m.sin (lon * m.pi / 180)
  let x := r * cosLat * cosLon
  let y := r * cosLat * sinLon
  let z := r * sinLat
  let v := noise3D x y z * 1.0 + noise3D (x * 2) (y * 2) (z * 2) * 0.5
    + noise3D (x * 4) (y * 4) (z * 4) * 0.25
  v / 1.75

/-- The Voronoi plate assignment of `generateTectonicPlates`: squared
planar lat/lon distance, starting from `minDist = Infinity, plateId = 0`,
strict improvement (first-seen center wins ties). -/
def voronoiPlate (centerCoords : List (ℚ × ℚ)) (lat lon : ℚ) : ℕ :=
  (centerCoords.enum.foldl
    (fun acc p =>
      let dLat := lat - p.2.1
      let dLon := lon - p.2.2
      let dist := dLat * dLat + dLon * dLon
      match acc.1 with
      | none => (some dist, p.1)
      | some minDist => if dist < minDist then (some dist, p.1) else acc)
    ((none : Option ℚ), 0)).2

/-- `WorldGenerator.generateTectonicPlates`.  `Math.random()` draws, in call
order: one for `numPlates`, then `numPlates` center picks, then (after the
Voronoi pass) `numPlates` plate heights. -/
def generateTectonicPlates (h3 : H3Lib) (cells : List String) (rng : ℕ → ℚ) :
    String → Option ℚ :=
  let numPlates := (8 + ⌊rng 0 * 5⌋).toNat
  let centers := (List.range numPlates).map
    (fun i => cells.getD (⌊rng (1 + i) * (cells.length : ℚ)⌋).toNat "")
  let centerCoords := centers.map h3.cellToLatLng
  let cellCoords := cells.map (fun c => (c, h3.cellToLatLng c))
  let plateMap : String → Option ℕ :=
    cellCoords.foldl
      (fun pm c => fun k =>
        if k = c.1 then some (voronoiPlate centerCoords c.2.1 c.2.2) else pm k)
      (fun _ => none)
  let plateHeights := (List.range numPlates).map (fun i => rng (1 + numPlates + i) * 0.8 + 0.1)
  cellCoords.foldl
    (fun hm c => fun k =>
      if k = c.1 then some (plateHeights.getD ((plateMap c.1).getD 0) 0) else hm k)
    (fun _ => none)

/-- Number of `Math.random()` draws consumed by a `generateTectonicPlates`
call, used to offset the stream seen by the river pass. -/
def tectonicRngDraws (rng : ℕ → ℚ) : ℕ :=
  1 + 2 * (8 + ⌊rng 0 * 5⌋).toNat

/-- The `heightMap` lookup table of `simulateRivers` (`Map.set` in list
order, later cells overwrite earlier ones). -/
def buildHeightMap (cells : List CellInfo) : String → Option ℚ :=
  cells.foldl (fun hm c => fun k => if k = c.h3Index then some c.height else hm k)
    (fun _ => none)

/-- The candidate river sources of `simulateRivers`:
`cells.filter(c => c.height > seaLevel + 0.3)`. -/
def riverCandidates (cells : List CellInfo) (seaLevel : ℚ) : List CellInfo :=
  cells.filter (fun c => decide (c.height > seaLevel + 0.3))

/-- The lower-neighbor search of one river-walk step: scan the 1-ring disk,
skip the current cell, track the strictly lowest height seen (starting
from the current height). -/
def findLowerNeighbor (h3 : H3Lib) (hm : String → Option ℚ) (curId : String) (curHeight : ℚ) :
    Option (String × ℚ) :=
  (h3.gridDisk curId).foldl
    (fun best n =>
      if n = curId then best
      else
        match hm n with
        | none => best
        | some h =>
          match best with
          | none => if h < curHeight then some (n, h) else none
          | some b => if h < b.2 then some (n, h) else best)
    none

/-- One river trial's steepest-descent walk, returning the marked
`(cellId, height)` pairs in visit order.  `fuel` is the remaining step
budget (`100 - pathLength`); the `while` guard `height > seaLevel &&
pathLength < 100` is checked before each mark. -/
def riverWalk (h3 : H3Lib) (hm : String → Option ℚ) (seaLevel : ℚ) :
    ℕ → String → ℚ → List (String × ℚ)
  | 0, _, _ => []
  | fuel + 1, curId, curHeight =>
    if curHeight > seaLevel then
      (curId, curHeight) ::
        (match findLowerNeighbor h3 hm curId curHeight with
          | some nxt => riverWalk h3 hm seaLevel fuel nxt.1 nxt.2
          | none => [])
    else []

/-- The random candidate pick of one trial:
`candidates[Math.floor(Math.random() * candidates.length)]`. -/
def trialStart (candidates : List CellInfo) (r : ℚ) : CellInfo :=
  candidates.getD (⌊r * (candidates.length : ℚ)⌋).toNat default

/-- The cells visited (marked as river cells) by trial `i`. -/
def trialVisit (h3 : H3Lib) (hm : String → Option ℚ) (seaLevel : ℚ)
    (candidates : List CellInfo) (rng : ℕ → ℚ) (i : ℕ) : List (String × ℚ) :=
  let start := trialStart candidates (rng i)
  riverWalk h3 hm seaLevel 100 start.h3Index start.height

/-- `WorldGenerator.simulateRivers`: 50 trials (the loop breaks at once if
the candidate list is empty, which never changes during the loop), each
drawing one random and walking downhill; the result is the set of all
marked cells. -/
def simulateRivers (h3 : H3Lib) (cells : List CellInfo) (seaLevel : ℚ) (rng : ℕ → ℚ) :
    Finset String :=
  let hm := buildHeightMap cells
  let candidates := riverCandidates cells seaLevel
  if candidates.isEmpty then ∅
  else
    (List.range 50).foldl
      (fun rivers i =>
        rivers ∪ ((trialVisit h3 hm seaLevel candidates rng i).map Prod.fst).toFinset)
      ∅

/-- The per-cell elevation of the first pass of `generateWorld`: height map
sampling takes priority, then tectonic base + noise detail (clamped), then
plain noise mapped from `[-1,1]` to `[0,1]`. -/
def computeHeight (m : MathLib) (noise3D : ℚ → ℚ → ℚ → ℚ) (heightMapCtx : Option Raster)
    (tectonicHeights : Option (String → Option ℚ)) (h3Index : String) (lat lon : ℚ) : ℚ :=
  match heightMapCtx with
  | some ctx =>
    let x := (lon + 180) / 360 * (ctx.width : ℚ)
    let y := (90 - lat) / 180 * (ctx.height : ℚ)
    let safeX := max 0 (min (ctx.width - 1) ⌊x⌋)
    let safeY := max 0 (min (ctx.height - 1) ⌊y⌋)
    ((ctx.pixel safeX safeY : ℕ) : ℚ) / 255
  | none =>
    match tectonicHeights with
    | some th =>
      let base := (th h3Index).getD 0
      let detail := getNoise m noise3D lat lon * 0.1
      min 1 (max 0 (base + detail))
    | none => (getNoise m noise3D lat lon + 1) / 2

/-- Expansion of the resolution-0 base cells to the requested resolution
(resolution 0 returns the base cells unchanged). -/
def expandCells (h3 : H3Lib) (resolution : ℕ) : List String :=
  if resolution = 0 then h3.getRes0Cells
  else h3.getRes0Cells.flatMap (fun c => h3.cellToChildren c resolution)

/-- `WorldGenerator.generateWorld`.  The `rng` stream models the ambient
`Math.random()` generator as observed by this call; the tectonic pass (when
selected) consumes its draws first, then the river pass. -/
def generateWorld (h3 : H3Lib) (m : MathLib) (noise3D : ℚ → ℚ → ℚ → ℚ)
    (heightMapCtx : Option Raster) (rng : ℕ → ℚ) (resolution : ℕ)
    (seaLevel sunlight axialTilt rotationSpeed rotationPeriod orbitalPeriod : ℚ)
    (generationMethod : GenMethod) : List CellData :=
  let allCells := expandCells h3 resolution
  let tectonicHeights : Option (String → Option ℚ) :=
    match generationMethod with
    | GenMethod.tectonic => some (generateTectonicPlates h3 allCells rng)
    | GenMethod.noise => none
  let riverRng : ℕ → ℚ :=
    match generationMethod with
    | GenMethod.tectonic => fun i => rng (tectonicRngDraws rng + i)
    | GenMethod.noise => rng
  let cellInfos : List CellInfo := allCells.map (fun h3Index =>
    let ll := h3.cellToLatLng h3Index
    { h3Index := h3Index, lat := ll.1, lon := ll.2,
      height := computeHeight m noise3D heightMapCtx tectonicHeights h3Index ll.1 ll.2 })
  let rivers := simulateRivers h3 cellInfos seaLevel riverRng
  cellInfos.map (fun info =>
    let isRiver : Bool := decide (info.h3Index ∈ rivers)
    let insolation := calculateInsolation m info.lat info.lon axialTilt sunlight
      rotationPeriod orbitalPeriod
    let temp := calculateTemperature insolation info.height seaLevel
    let moisture0 := calculateMoisture m info.lat info.height seaLevel rotationSpeed
    let moisture := if isRiver then moisture0 + 0.3 else moisture0
    let biome0 := determineBiome temp moisture info.height seaLevel
    let biome := if isRiver ∧ info.height > seaLevel then "RIVER" else biome0
    { h3Index := info.h3Index, lat := info.lat, lon := info.lon, height := info.height,
      temperature := temp, moisture := moisture, biome := biome, isRiver := isRiver })

/-- `ClimateSystem.calculateInsolation` over the real numbers with the
genuine cosine, for the trigonometric properties of the formula. -/
noncomputable def calculateInsolationReal (lat lon _tilt sunlight rotationPeriod orbitalPeriod : ℝ) : ℝ :=
  if |rotationPeriod - orbitalPeriod| < 0.1 then
    let latRad := lat * Real.pi / 180
    let lonRad := lon * Real.pi / 180
    max 0 (Real.cos latRad * Real.cos lonRad) * sunlight
  else
    Real.cos (lat * Real.pi / 180) * sunlight

/-- The biome decision table as worded by the specification, for comparison
with the source's `determineBiome`. -/
def biomeTableSpec (temperature moisture elevation seaLevel : ℚ) : String :=
  if elevation ≤ seaLevel then "OCEAN"
  else if temperature < -5 then "ICE"
  else if temperature < 5 then "TUNDRA"
  else if temperature > 20 then
    if moisture > 0.8 then "TROPICAL_RAINFOREST"
    else if moisture > 0.4 then "SAVANNA"
    else "DESERT"
  else if temperature > 10 then
    if moisture > 0.6 then "TEMPERATE_FOREST"
    else if moisture > 0.3 then "GRASSLAND"
    else "DESERT"
  else if moisture > 0.5 then "TAIGA"
  else "TUNDRA"

/-! Concrete instances used to exercise the pipeline on explicit inputs. -/

/-- A one-cell grid whose only cell is its own 1-ring. -/
def oneCellH3 : H3Lib where
  getRes0Cells := ["a"]
  cellToChildren := fun c _ => [c]
  cellToLatLng := fun _ => (0, 0)
  gridDisk := fun c => [c]

/-- A two-cell grid with topologically isolated cells. -/
def twoCellH3 : H3Lib where
  getRes0Cells := ["a", "b"]
  cellToChildren := fun c _ => [c]
  cellToLatLng := fun c => if c = "a" then (0, 0) else (10, 10)
  gridDisk := fun c => [c]

/-- A `Math` stand-in with `cos = 1`, `sin = 0`, `sqrt = 1`, `pi = 3`. -/
def constMath : MathLib where
  cos := fun _ => 1
  sin := fun _ => 0
  sqrt := fun _ => 1
  pi := 3

/-- A noise sampler constantly 1 (within the documented range). -/
def oneNoise : ℚ → ℚ → ℚ → ℚ := fun _ _ _ => 1

/-- An ambient RNG stream constantly 0. -/
def zeroRng : ℕ → ℚ := fun _ => 0

/-- An ambient RNG stream constantly 1/2. -/
def halfRng : ℕ → ℚ := fun _ => 1/2

/-- A one-cell elevation pass whose single cell sits at height 0.9. -/
def cellA09 : CellInfo := ⟨"a", 0, 0, 9/10⟩

/-- A complete one-cell generation run whose single cell becomes a river
cell: elevation 1, sea level 0. -/
def c1World : List CellData :=
  generateWorld oneCellH3 constMath oneNoise none zeroRng 0 0 1 23.5 1 1 365 GenMethod.noise

/-- A one-cell elevation pass with its cell high above sea level. -/
def cellA : CellInfo := ⟨"a", 0, 0, 1⟩

/-! Helper lemmas shared by several developments below. -/

/-- The decision table never produces the RIVER tag; RIVER only arises from
the orchestrator's post-classification override. -/
lemma determineBiome_ne_river (temp moisture height seaLevel : ℚ) :
    determineBiome temp moisture height seaLevel ≠ "RIVER" := by
  unfold determineBiome
  split_ifs <;> decide

/-- `calculateMoisture` clamps its result into `[0, 1]`. -/
lemma calculateMoisture_nonneg (m : MathLib) (lat height seaLevel rotationSpeed : ℚ) :
    0 ≤ calculateMoisture m lat height seaLevel rotationSpeed := by
  unfold calculateMoisture
  exact le_min (by norm_num) (le_max_left 0 _)

/-- `calculateMoisture` clamps its result into `[0, 1]`. -/
lemma calculateMoisture_le_one (m : MathLib) (lat height seaLevel rotationSpeed : ℚ) :
    calculateMoisture m lat height seaLevel rotationSpeed ≤ 1 := by
  unfold calculateMoisture
  exact min_le_left 1 _

/-- Three-octave noise stays in `[-1, 1]` when the sampler does. -/
lemma getNoise_bounds (m : MathLib) (noise3D : ℚ → ℚ → ℚ → ℚ)
    (hnoise : ∀ x y z, -1 ≤ noise3D x y z ∧ noise3D x y z ≤ 1) (lat lon : ℚ) :
    -1 ≤ getNoise m noise3D lat lon ∧ getNoise m noise3D lat lon ≤ 1 := by
  unfold getNoise
  obtain ⟨h1a, h1b⟩ := hnoise (1 * m.cos (lat * m.pi / 180) * m.cos (lon * m.pi / 180))
    (1 * m.cos (lat * m.pi / 180) * m.sin (lon * m.pi / 180)) (1 * m.sin (lat * m.pi / 180))
  obtain ⟨h2a, h2b⟩ := hnoise (1 * m.cos (lat * m.pi / 180) * m.cos (lon * m.pi / 180) * 2)
    (1 * m.cos (lat * m.pi / 180) * m.sin (lon * m.pi / 180) * 2) (1 * m.sin (lat * m.pi / 180) * 2)
  obtain ⟨h3a, h3b⟩ := hnoise (1 * m.cos (lat * m.pi / 180) * m.cos (lon * m.pi / 180) * 4)
    (1 * m.cos (lat * m.pi / 180) * m.sin (lon * m.pi / 180) * 4) (1 * m.sin (lat * m.pi / 180) * 4)
  constructor
  · rw [le_div_iff₀ (by norm_num : (0:ℚ) < 1.75)]
    linarith
  · rw [div_le_iff₀ (by norm_num : (0:ℚ) < 1.75)]
    linarith

/-- Every elevation produced by the first pass lies in `[0, 1]`, whatever
the elevation source, provided the noise sampler respects its range. -/
lemma computeHeight_bounds (m : MathLib) (noise3D : ℚ → ℚ → ℚ → ℚ)
    (heightMapCtx : Option Raster) (tectonicHeights : Option (String → Option ℚ))
    (h3Index : String) (lat lon : ℚ)
    (hnoise : ∀ x y z, -1 ≤ noise3D x y z ∧ noise3D x y z ≤ 1) :
    0 ≤ computeHeight m noise3D heightMapCtx tectonicHeights h3Index lat lon ∧
      computeHeight m noise3D heightMapCtx tectonicHeights h3Index lat lon ≤ 1 := by
  unfold computeHeight
  cases heightMapCtx with
  | some ctx =>
    constructor
    · positivity
    · rw [div_le_one (by norm_num : (0:ℚ) < 255)]
      have h := (ctx.pixel (max 0 (min (ctx.width - 1) ⌊(lon + 180) / 360 * (ctx.width : ℚ)⌋))
        (max 0 (min (ctx.height - 1) ⌊(90 - lat) / 180 * (ctx.height : ℚ)⌋))).isLt
      exact_mod_cast Nat.lt_succ_iff.mp h
  | none =>
    cases tectonicHeights with
    | some th =>
      constructor
      · exact le_min (by norm_num) (le_max_left 0 _)
      · exact min_le_left 1 _
    | none =>
      obtain ⟨ha, hb⟩ := getNoise_bounds m noise3D hnoise lat lon
      constructor <;> · simp only []; linarith

/-! Claim developments. -/

/-- Claim C3: the biome classifier is a pure function of
(temperature, moisture, elevation, seaLevel) computing exactly the
specified decision table in the specified priority order. -/
theorem biome_table_correct :
    ∀ temp moisture height seaLevel : ℚ,
      determineBiome temp moisture height seaLevel =
        biomeTableSpec temp moisture height seaLevel :=
  fun _ _ _ _ => rfl

/-- Claim C5: `generateWorld` returns exactly one record per cell of the
expanded grid, whatever the noise field, generation method, RNG stream or
height-map state; resolution 0 uses the base cells unchanged. -/
theorem generateWorld_length :
    ∀ (h3 : H3Lib) (m : MathLib) (noise3D : ℚ → ℚ → ℚ → ℚ) (heightMapCtx : Option Raster)
      (rng : ℕ → ℚ) (resolution : ℕ)
      (seaLevel sunlight axialTilt rotationSpeed rotationPeriod orbitalPeriod : ℚ)
      (generationMethod : GenMethod),
      (generateWorld h3 m noise3D heightMapCtx rng resolution seaLevel sunlight axialTilt
          rotationSpeed rotationPeriod orbitalPeriod generationMethod).length
        = (expandCells h3 resolution).length ∧
      expandCells h3 0 = h3.getRes0Cells := by
  intros
  constructor
  · simp [generateWorld]
  · simp [expandCells]

/-- Claim C2: with every explicit input held fixed (seed-derived noise
field, parameters, grid), two runs that observe different ambient
`Math.random()` streams produce different `CellData` sequences: the output
is not a function of seed and parameters alone. -/
theorem generateWorld_not_deterministic :
    generateWorld twoCellH3 constMath oneNoise none zeroRng 0 0 1 23.5 1 1 365 GenMethod.noise
      ≠ generateWorld twoCellH3 constMath oneNoise none halfRng 0 0 1 23.5 1 1 365
          GenMethod.noise := by
  with_unfolding_all decide

/-- Claim C6: the candidate river sources are exactly the cells with
elevation above `seaLevel + 0.3`, and an empty candidate list yields an
empty river set. -/
theorem riverCandidates_characterization :
    ∀ (h3 : H3Lib) (cells : List CellInfo) (seaLevel : ℚ) (rng : ℕ → ℚ),
      (∀ c, c ∈ riverCandidates cells seaLevel ↔ c ∈ cells ∧ seaLevel + 0.3 < c.height) ∧
      (riverCandidates cells seaLevel = [] → simulateRivers h3 cells seaLevel rng = ∅) := by
  intro h3 cells seaLevel rng
  constructor
  · intro c
    simp [riverCandidates, List.mem_filter]
  · intro h
    simp [simulateRivers, h]

/-- Claim C6 witness: with `seaLevel = 0.9` and no elevation above 0.9 the
candidate set is empty and the returned river set is empty. -/
theorem riverCandidates_characterization_witness :
    riverCandidates [cellA09] (9/10) = [] ∧
      simulateRivers oneCellH3 [cellA09] (9/10) zeroRng = ∅ := by
  have hempty : riverCandidates [cellA09] (9/10) = [] := by with_unfolding_all rfl
  exact ⟨hempty,
    (riverCandidates_characterization oneCellH3 [cellA09] (9/10) zeroRng).2 hempty⟩

/-- Claim C8: the tidal-lock substellar model is used exactly when
`|rotationPeriod - orbitalPeriod| < 0.1`; in that regime the substellar
point receives exactly `sunlight` and the antipodal meridian and the poles
receive 0; otherwise the latitudinal model applies; the axial tilt
parameter is never applied in either regime. -/
theorem calculateInsolation_spec :
    ∀ lat lon tilt sunlight rotationPeriod orbitalPeriod : ℝ,
      (calculateInsolationReal lat lon tilt sunlight rotationPeriod orbitalPeriod =
        if |rotationPeriod - orbitalPeriod| < 0.1 then
          max 0 (Real.cos (lat * Real.pi / 180) * Real.cos (lon * Real.pi / 180)) * sunlight
        else Real.cos (lat * Real.pi / 180) * sunlight) ∧
      (|rotationPeriod - orbitalPeriod| < 0.1 →
        calculateInsolationReal 0 0 tilt sunlight rotationPeriod orbitalPeriod = sunlight) ∧
      (|rotationPeriod - orbitalPeriod| < 0.1 →
        calculateInsolationReal 90 lon tilt sunlight rotationPeriod orbitalPeriod = 0 ∧
        calculateInsolationReal (-90) lon tilt sunlight rotationPeriod orbitalPeriod = 0) ∧
      (|rotationPeriod - orbitalPeriod| < 0.1 → |lat| ≤ 90 →
        calculateInsolationReal lat 180 tilt sunlight rotationPeriod orbitalPeriod = 0 ∧
        calculateInsolationReal lat (-180) tilt sunlight rotationPeriod orbitalPeriod = 0) ∧
      (∀ tilt2, calculateInsolationReal lat lon tilt sunlight rotationPeriod orbitalPeriod =
        calculateInsolationReal lat lon tilt2 sunlight rotationPeriod orbitalPeriod) := by
  intro lat lon tilt sunlight rotationPeriod orbitalPeriod
  have char : ∀ la lo : ℝ,
      calculateInsolationReal la lo tilt sunlight rotationPeriod orbitalPeriod =
        if |rotationPeriod - orbitalPeriod| < 0.1 then
          max 0 (Real.cos (la * Real.pi / 180) * Real.cos (lo * Real.pi / 180)) * sunlight
        else Real.cos (la * Real.pi / 180) * sunlight := fun _ _ => rfl
  have hlat90 : (90 : ℝ) * Real.pi / 180 = Real.pi / 2 := by ring
  have hlatm90 : (-90 : ℝ) * Real.pi / 180 = -(Real.pi / 2) := by ring
  have hlon180 : (180 : ℝ) * Real.pi / 180 = Real.pi := by ring
  have hlonm180 : (-180 : ℝ) * Real.pi / 180 = -Real.pi := by ring
  refine ⟨char lat lon, ?_, ?_, ?_, fun _ => rfl⟩
  · intro h
    rw [char, if_pos h]
    simp [Real.cos_zero]
  · intro h
    constructor
    · rw [char, if_pos h, hlat90, Real.cos_pi_div_two, zero_mul, max_self, zero_mul]
    · rw [char, if_pos h, hlatm90, Real.cos_neg, Real.cos_pi_div_two, zero_mul, max_self,
        zero_mul]
  · intro h hlat
    have hcosnn : 0 ≤ Real.cos (lat * Real.pi / 180) := by
      apply Real.cos_nonneg_of_mem_Icc
      rw [Set.mem_Icc]
      obtain ⟨h1, h2⟩ := abs_le.mp hlat
      have hpi : 0 < Real.pi := Real.pi_pos
      constructor <;> nlinarith
    constructor
    · rw [char, if_pos h, hlon180, Real.cos_pi, mul_neg_one,
        max_eq_left (neg_nonpos.mpr hcosnn), zero_mul]
    · rw [char, if_pos h, hlonm180, Real.cos_neg, Real.cos_pi, mul_neg_one,
        max_eq_left (neg_nonpos.mpr hcosnn), zero_mul]

/-- Claim C8 witness: at the substellar point of a tidally locked planet
the insolation is exactly `sunlight`; at the pole and on the antimeridian
it is 0. -/
theorem calculateInsolation_spec_witness :
    calculateInsolationReal 0 0 23.5 1 1 1 = 1 ∧
    calculateInsolationReal 90 77 23.5 1 1 1 = 0 ∧
    calculateInsolationReal 33 180 23.5 1 1 1 = 0 := by
  have h : |(1:ℝ) - 1| < 0.1 := by norm_num
  exact ⟨(calculateInsolation_spec 0 0 23.5 1 1 1).2.1 h,
    ((calculateInsolation_spec 0 77 23.5 1 1 1).2.2.1 h).1,
    ((calculateInsolation_spec 33 180 23.5 1 1 1).2.2.2.1 h (by norm_num)).1⟩

/-- Claim C1 counterexample: a generation run whose river cell ends with
moisture 1.3 > 1 — the +0.3 river bonus is added after `calculateMoisture`
has already clamped, so river-cell moisture is not confined to `[0, 1]`. -/
theorem moisture_range_cex :
    (generateWorld oneCellH3 constMath oneNoise none zeroRng 0 0 1 23.5 1 1 365
        GenMethod.noise).map CellData.moisture = [13/10] ∧ ¬ ((13:ℚ)/10 ≤ 1) := by
  constructor
  · with_unfolding_all rfl
  · norm_num

/-- Claim C1 (amended): elevation always lies in `[0, 1]`; moisture is
nonnegative and lies in `[0, 1]` for non-river cells; river cells receive
the +0.3 bonus after the clamp, so their moisture is only bounded by 1.3. -/
theorem generateWorld_ranges :
    ∀ (h3 : H3Lib) (m : MathLib) (noise3D : ℚ → ℚ → ℚ → ℚ) (heightMapCtx : Option Raster)
      (rng : ℕ → ℚ) (resolution : ℕ)
      (seaLevel sunlight axialTilt rotationSpeed rotationPeriod orbitalPeriod : ℚ)
      (generationMethod : GenMethod),
      (∀ x y z, -1 ≤ noise3D x y z ∧ noise3D x y z ≤ 1) →
      ∀ c ∈ generateWorld h3 m noise3D heightMapCtx rng resolution seaLevel sunlight axialTilt
          rotationSpeed rotationPeriod orbitalPeriod generationMethod,
        (0 ≤ c.height ∧ c.height ≤ 1) ∧ 0 ≤ c.moisture ∧
        (c.isRiver = false → c.moisture ≤ 1) ∧ c.moisture ≤ 13/10 := by
  intro h3 m noise3D heightMapCtx rng resolution seaLevel sunlight axialTilt rotationSpeed
    rotationPeriod orbitalPeriod generationMethod hnoise c hc
  simp only [generateWorld, List.mem_map] at hc
  obtain ⟨info, hinfo, rfl⟩ := hc
  have hb : 0 ≤ info.height ∧ info.height ≤ 1 := by
    obtain ⟨a, _, rfl⟩ := hinfo
    exact computeHeight_bounds m noise3D heightMapCtx _ a _ _ hnoise
  have hm0 := calculateMoisture_nonneg m info.lat info.height seaLevel rotationSpeed
  have hm1 := calculateMoisture_le_one m info.lat info.height seaLevel rotationSpeed
  refine ⟨hb, ?_, ?_, ?_⟩
  · dsimp only
    split_ifs <;> linarith
  · dsimp only
    intro hfalse
    split_ifs with hif
    · rw [hif] at hfalse
      exact absurd hfalse (by simp)
    · exact hm1
  · dsimp only
    split_ifs <;> linarith

/-- Claim C1 (amended) witness: the concrete one-cell river world
satisfies the amended range bounds. -/
theorem generateWorld_ranges_witness :
    (0 ≤ (c1World.getD 0 default).height ∧ (c1World.getD 0 default).height ≤ 1) ∧
    0 ≤ (c1World.getD 0 default).moisture ∧
    ((c1World.getD 0 default).isRiver = false → (c1World.getD 0 default).moisture ≤ 1) ∧
    (c1World.getD 0 default).moisture ≤ 13/10 :=
  generateWorld_ranges oneCellH3 constMath oneNoise none zeroRng 0 0 1 23.5 1 1 365
    GenMethod.noise (fun x y z => by norm_num [oneNoise]) _ (by with_unfolding_all decide)

/-- Claim C9: with `seaLevel = 1` every returned cell is classified OCEAN,
for every noise field, resolution, generation method, RNG stream and
height-map state. -/
theorem seaLevel_one_all_ocean :
    ∀ (h3 : H3Lib) (m : MathLib) (noise3D : ℚ → ℚ → ℚ → ℚ) (heightMapCtx : Option Raster)
      (rng : ℕ → ℚ) (resolution : ℕ)
      (sunlight axialTilt rotationSpeed rotationPeriod orbitalPeriod : ℚ)
      (generationMethod : GenMethod),
      (∀ x y z, -1 ≤ noise3D x y z ∧ noise3D x y z ≤ 1) →
      ∀ c ∈ generateWorld h3 m noise3D heightMapCtx rng resolution 1 sunlight axialTilt
          rotationSpeed rotationPeriod orbitalPeriod generationMethod,
        c.biome = "OCEAN" := by
  intro h3 m noise3D heightMapCtx rng resolution sunlight axialTilt rotationSpeed
    rotationPeriod orbitalPeriod generationMethod hnoise c hc
  simp only [generateWorld, List.mem_map] at hc
  obtain ⟨info, hinfo, rfl⟩ := hc
  have hb : 0 ≤ info.height ∧ info.height ≤ 1 := by
    obtain ⟨a, _, rfl⟩ := hinfo
    exact computeHeight_bounds m noise3D heightMapCtx _ a _ _ hnoise
  dsimp only
  rw [if_neg (fun hand => absurd hand.2 (not_lt.mpr hb.2))]
  unfold determineBiome
  rw [if_pos hb.2]

/-- Claim C9 witness: the concrete one-cell world generated with
`seaLevel = 1` comes out OCEAN. -/
theorem seaLevel_one_all_ocean_witness :
    ((generateWorld oneCellH3 constMath oneNoise none zeroRng 0 1 1 23.5 1 1 365
        GenMethod.noise).getD 0 default).biome = "OCEAN" :=
  seaLevel_one_all_ocean oneCellH3 constMath oneNoise none zeroRng 0 1 23.5 1 1 365
    GenMethod.noise (fun x y z => by norm_num [oneNoise]) _ (by with_unfolding_all decide)

/-- A string-valued conditional equals RIVER exactly when its condition
holds, provided the alternative is not RIVER. -/
lemma if_river_iff (P : Prop) [Decidable P] (s : String) (hs : s ≠ "RIVER") :
    (if P then "RIVER" else s) = "RIVER" ↔ P := by
  split_ifs with h
  · exact iff_of_true rfl h
  · exact iff_of_false hs h

/-- Claim C4: a returned cell's biome is RIVER exactly when the cell was
marked as a river cell and its elevation is strictly above sea level. -/
theorem biome_river_iff :
    ∀ (h3 : H3Lib) (m : MathLib) (noise3D : ℚ → ℚ → ℚ → ℚ) (heightMapCtx : Option Raster)
      (rng : ℕ → ℚ) (resolution : ℕ)
      (seaLevel sunlight axialTilt rotationSpeed rotationPeriod orbitalPeriod : ℚ)
      (generationMethod : GenMethod),
      ∀ c ∈ generateWorld h3 m noise3D heightMapCtx rng resolution seaLevel sunlight axialTilt
          rotationSpeed rotationPeriod orbitalPeriod generationMethod,
        (c.biome = "RIVER" ↔ c.isRiver = true ∧ seaLevel < c.height) := by
  intro h3 m noise3D heightMapCtx rng resolution seaLevel sunlight axialTilt rotationSpeed
    rotationPeriod orbitalPeriod generationMethod c hc
  simp only [generateWorld, List.mem_map] at hc
  obtain ⟨info, _, rfl⟩ := hc
  exact if_river_iff _ _ (determineBiome_ne_river _ _ _ _)

/-- Claim C4 witness: the concrete one-cell river world's cell is
classified RIVER, and the equivalence holds on it. -/
theorem biome_river_iff_witness :
    (c1World.getD 0 default).biome = "RIVER" ↔
      (c1World.getD 0 default).isRiver = true ∧ (0:ℚ) < (c1World.getD 0 default).height :=
  biome_river_iff oneCellH3 constMath oneNoise none zeroRng 0 0 1 23.5 1 1 365
    GenMethod.noise _ (by with_unfolding_all decide)

/-- Fold invariant principle: a property preserved by each step (for
elements of the list) holds of the fold result. -/
lemma foldl_invariant {α β : Type} (op : β → α → β) (C : β → Prop) :
    ∀ (l : List α) (b : β), C b → (∀ b, C b → ∀ a ∈ l, C (op b a)) → C (l.foldl op b) := by
  intro l
  induction l with
  | nil => intro b hb _; exact hb
  | cons x xs ih =>
    intro b hb hstep
    rw [List.foldl_cons]
    exact ih (op b x) (hstep b hb x (List.mem_cons_self x xs))
      (fun b' hb' a ha => hstep b' hb' a (List.mem_cons_of_mem x ha))

/-- Any successful lower-neighbor search returns a strictly lower cell of
the 1-ring, distinct from the current cell and present in the height map. -/
lemma findLowerNeighbor_spec (h3 : H3Lib) (hm : String → Option ℚ) (curId : String)
    (curHeight : ℚ) :
    ∀ p : String × ℚ, findLowerNeighbor h3 hm curId curHeight = some p →
      p.2 < curHeight ∧ p.1 ∈ h3.gridDisk curId ∧ p.1 ≠ curId ∧ hm p.1 = some p.2 := by
  unfold findLowerNeighbor
  refine foldl_invariant _
    (fun b => ∀ p : String × ℚ, b = some p →
      p.2 < curHeight ∧ p.1 ∈ h3.gridDisk curId ∧ p.1 ≠ curId ∧ hm p.1 = some p.2)
    (h3.gridDisk curId) none ?_ ?_
  · intro p hp
    exact absurd hp (by simp)
  · intro b hb a ha p hp
    by_cases hx : a = curId
    · rw [if_pos hx] at hp
      exact hb p hp
    · rw [if_neg hx] at hp
      cases hhm : hm a with
      | none =>
        rw [hhm] at hp
        exact hb p hp
      | some h' =>
        rw [hhm] at hp
        cases b with
        | none =>
          dsimp only at hp
          by_cases hlt : h' < curHeight
          · rw [if_pos hlt] at hp
            cases hp
            exact ⟨hlt, ha, hx, hhm⟩
          · rw [if_neg hlt] at hp
            exact absurd hp (by simp)
        | some bp =>
          dsimp only at hp
          by_cases hlt : h' < bp.2
          · rw [if_pos hlt] at hp
            cases hp
            exact ⟨lt_trans hlt (hb bp rfl).1, ha, hx, hhm⟩
          · rw [if_neg hlt] at hp
            exact hb p hp

/-- Each walk marks at most `fuel` cells: the step cap bounds the path. -/
lemma riverWalk_length (h3 : H3Lib) (hm : String → Option ℚ) (seaLevel : ℚ) :
    ∀ (fuel : ℕ) (curId : String) (curHeight : ℚ),
      (riverWalk h3 hm seaLevel fuel curId curHeight).length ≤ fuel := by
  intro fuel
  induction fuel with
  | zero => intro _ _; simp [riverWalk]
  | succ f ih =>
    intro curId curHeight
    rw [riverWalk]
    split_ifs with hgt
    · cases hfl : findLowerNeighbor h3 hm curId curHeight with
      | none => simp [hfl]
      | some nxt =>
        simp only [hfl, List.length_cons]
        exact Nat.succ_le_succ (ih nxt.1 nxt.2)
    · simp

/-- A walk starting at or below sea level marks nothing. -/
lemma riverWalk_below (h3 : H3Lib) (hm : String → Option ℚ) (seaLevel : ℚ)
    (fuel : ℕ) (curId : String) (curHeight : ℚ) (h : curHeight ≤ seaLevel) :
    riverWalk h3 hm seaLevel fuel curId curHeight = [] := by
  cases fuel with
  | zero => rfl
  | succ f =>
    rw [riverWalk]
    rw [if_neg (not_lt.mpr h)]

/-- A walk at a local minimum above sea level marks the current cell and
stops. -/
lemma riverWalk_localmin (h3 : H3Lib) (hm : String → Option ℚ) (seaLevel : ℚ)
    (fuel : ℕ) (curId : String) (curHeight : ℚ) (h1 : seaLevel < curHeight)
    (h2 : findLowerNeighbor h3 hm curId curHeight = none) :
    riverWalk h3 hm seaLevel (fuel + 1) curId curHeight = [(curId, curHeight)] := by
  rw [riverWalk, if_pos h1, h2]

/-- The head of a nonempty walk is the starting cell. -/
lemma riverWalk_head (h3 : H3Lib) (hm : String → Option ℚ) (seaLevel : ℚ)
    (fuel : ℕ) (curId : String) (curHeight : ℚ) (p : String × ℚ)
    (hp : (riverWalk h3 hm seaLevel fuel curId curHeight).head? = some p) :
    p = (curId, curHeight) := by
  cases fuel with
  | zero => exact absurd hp (by simp [riverWalk])
  | succ f =>
    rw [riverWalk] at hp
    split_ifs at hp with hgt
    · simp only [List.head?_cons, Option.some.injEq] at hp
      exact hp.symm
    · exact absurd hp (by simp)

/-- Along a walk, each move goes to a strictly lower cell of the current
cell's 1-ring, distinct from it and present in the height map. -/
lemma riverWalk_chain (h3 : H3Lib) (hm : String → Option ℚ) (seaLevel : ℚ) :
    ∀ (fuel : ℕ) (curId : String) (curHeight : ℚ),
      List.Chain'
        (fun a b : String × ℚ =>
          b.2 < a.2 ∧ b.1 ∈ h3.gridDisk a.1 ∧ b.1 ≠ a.1 ∧ hm b.1 = some b.2)
        (riverWalk h3 hm seaLevel fuel curId curHeight) := by
  intro fuel
  induction fuel with
  | zero => intro _ _; simp [riverWalk]
  | succ f ih =>
    intro curId curHeight
    rw [riverWalk]
    split_ifs with hgt
    · cases hfl : findLowerNeighbor h3 hm curId curHeight with
      | none => simp
      | some nxt =>
        simp only [hfl]
        rw [List.chain'_cons']
        refine ⟨?_, ih nxt.1 nxt.2⟩
        intro p hp
        have hpeq := riverWalk_head h3 hm seaLevel f nxt.1 nxt.2 p hp
        rw [hpeq]
        have hspec := findLowerNeighbor_spec h3 hm curId curHeight nxt hfl
        exact ⟨hspec.1, hspec.2.1, hspec.2.2.1, hspec.2.2.2⟩
    · simp

/-- Every marked cell of a walk is above sea level, and is either the
starting cell or a height-map entry at its recorded height. -/
lemma riverWalk_mem (h3 : H3Lib) (hm : String → Option ℚ) (seaLevel : ℚ) :
    ∀ (fuel : ℕ) (curId : String) (curHeight : ℚ) (p : String × ℚ),
      p ∈ riverWalk h3 hm seaLevel fuel curId curHeight →
        seaLevel < p.2 ∧ (p = (curId, curHeight) ∨ hm p.1 = some p.2) := by
  intro fuel
  induction fuel with
  | zero => intro _ _ p hp; exact absurd hp (by simp [riverWalk])
  | succ f ih =>
    intro curId curHeight p hp
    rw [riverWalk] at hp
    split_ifs at hp with hgt
    · rcases List.mem_cons.mp hp with rfl | htail
      · exact ⟨hgt, Or.inl rfl⟩
      · cases hfl : findLowerNeighbor h3 hm curId curHeight with
        | none =>
          rw [hfl] at htail
          exact absurd htail (by simp)
        | some nxt =>
          rw [hfl] at htail
          obtain ⟨h1, h2⟩ := ih nxt.1 nxt.2 p htail
          refine ⟨h1, Or.inr ?_⟩
          rcases h2 with rfl | h2
          · exact (findLowerNeighbor_spec h3 hm curId curHeight nxt hfl).2.2.2
          · exact h2
    · exact absurd hp (by simp)

/-- A left fold of unions is the initial set joined with the union over
the list. -/
lemma foldl_union_eq_biUnion (f : ℕ → Finset String) :
    ∀ (l : List ℕ) (init : Finset String),
      l.foldl (fun s i => s ∪ f i) init = init ∪ l.toFinset.biUnion f := by
  intro l
  induction l with
  | nil => intro init; simp
  | cons a xs ih =>
    intro init
    rw [List.foldl_cons, ih, List.toFinset_cons, Finset.biUnion_insert]
    ext x
    simp

/-- The list `range` and the finset `range` carry the same elements. -/
lemma toFinset_list_range (n : ℕ) : (List.range n).toFinset = Finset.range n := by
  ext x
  simp

/-- With a nonempty candidate list, the returned river set is the union of
the 50 trial walks' visited cells. -/
lemma simulateRivers_eq_biUnion (h3 : H3Lib) (cells : List CellInfo) (seaLevel : ℚ)
    (rng : ℕ → ℚ) (hne : riverCandidates cells seaLevel ≠ []) :
    simulateRivers h3 cells seaLevel rng =
      (Finset.range 50).biUnion (fun i =>
        ((trialVisit h3 (buildHeightMap cells) seaLevel (riverCandidates cells seaLevel)
          rng i).map Prod.fst).toFinset) := by
  simp only [simulateRivers]
  rw [if_neg (by simpa using hne), foldl_union_eq_biUnion, Finset.empty_union,
    toFinset_list_range]

/-- A candidate pick with an in-range random value lands in the candidate
list. -/
lemma trialStart_mem (candidates : List CellInfo) (r : ℚ) (hne : candidates ≠ [])
    (hr0 : 0 ≤ r) (hr1 : r < 1) : trialStart candidates r ∈ candidates := by
  unfold trialStart
  have hlen : 0 < candidates.length := List.length_pos.mpr hne
  have hlenQ : (0:ℚ) < (candidates.length : ℚ) := by exact_mod_cast hlen
  have h0 : 0 ≤ ⌊r * (candidates.length : ℚ)⌋ :=
    Int.floor_nonneg.mpr (mul_nonneg hr0 (le_of_lt hlenQ))
  have h1 : ⌊r * (candidates.length : ℚ)⌋ < (candidates.length : ℤ) := by
    rw [Int.floor_lt]
    push_cast
    calc r * (candidates.length : ℚ) < 1 * (candidates.length : ℚ) :=
          mul_lt_mul_of_pos_right hr1 hlenQ
      _ = (candidates.length : ℚ) := one_mul _
  have hidx : (⌊r * (candidates.length : ℚ)⌋).toNat < candidates.length := by omega
  rw [List.getD_eq_getElem?_getD, List.getElem?_eq_getElem hidx, Option.getD_some]
  exact List.getElem_mem hidx

/-- A height-map hit comes from some cell of the elevation pass. -/
lemma buildHeightMap_some (cells : List CellInfo) (k : String) (v : ℚ) :
    buildHeightMap cells k = some v → ∃ c ∈ cells, c.h3Index = k ∧ c.height = v := by
  unfold buildHeightMap
  refine foldl_invariant _
    (fun f => f k = some v → ∃ c ∈ cells, c.h3Index = k ∧ c.height = v)
    cells (fun _ => none) ?_ ?_
  · intro h
    exact absurd h (by simp)
  · intro f hf c hc h
    dsimp only at h
    by_cases hk : k = c.h3Index
    · rw [if_pos hk] at h
      exact ⟨c, hc, hk.symm, Option.some_inj.mp h⟩
    · rw [if_neg hk] at h
      exact hf h

/-- Claim C7: every trial walk terminates within the 100-step cap (marking
at most one cell per step), moves only to strictly lower distinct 1-ring
neighbors, stops at sea level or at a local minimum, and the returned set
is the union of the 50 trials' visited cells, with revisits idempotent. -/
theorem riverWalk_termination_and_union :
    ∀ (h3 : H3Lib) (cells : List CellInfo) (seaLevel : ℚ) (rng : ℕ → ℚ),
      (∀ (curId : String) (curHeight : ℚ),
        (riverWalk h3 (buildHeightMap cells) seaLevel 100 curId curHeight).length ≤ 100) ∧
      (∀ (fuel : ℕ) (curId : String) (curHeight : ℚ),
        List.Chain'
          (fun a b : String × ℚ =>
            b.2 < a.2 ∧ b.1 ∈ h3.gridDisk a.1 ∧ b.1 ≠ a.1 ∧
              buildHeightMap cells b.1 = some b.2)
          (riverWalk h3 (buildHeightMap cells) seaLevel fuel curId curHeight)) ∧
      (∀ (fuel : ℕ) (curId : String) (curHeight : ℚ), curHeight ≤ seaLevel →
        riverWalk h3 (buildHeightMap cells) seaLevel fuel curId curHeight = []) ∧
      (∀ (fuel : ℕ) (curId : String) (curHeight : ℚ), seaLevel < curHeight →
        findLowerNeighbor h3 (buildHeightMap cells) curId curHeight = none →
        riverWalk h3 (buildHeightMap cells) seaLevel (fuel + 1) curId curHeight
          = [(curId, curHeight)]) ∧
      (riverCandidates cells seaLevel ≠ [] →
        simulateRivers h3 cells seaLevel rng =
          (Finset.range 50).biUnion (fun i =>
            ((trialVisit h3 (buildHeightMap cells) seaLevel (riverCandidates cells seaLevel)
              rng i).map Prod.fst).toFinset)) ∧
      (∀ (i : ℕ) (s : Finset String),
        s ∪ ((trialVisit h3 (buildHeightMap cells) seaLevel (riverCandidates cells seaLevel)
              rng i).map Prod.fst).toFinset ∪
          ((trialVisit h3 (buildHeightMap cells) seaLevel (riverCandidates cells seaLevel)
            rng i).map Prod.fst).toFinset =
          s ∪ ((trialVisit h3 (buildHeightMap cells) seaLevel (riverCandidates cells seaLevel)
            rng i).map Prod.fst).toFinset) := by
  intro h3 cells seaLevel rng
  refine ⟨fun a b => riverWalk_length h3 (buildHeightMap cells) seaLevel 100 a b,
    riverWalk_chain h3 (buildHeightMap cells) seaLevel,
    fun fuel a b h => riverWalk_below h3 (buildHeightMap cells) seaLevel fuel a b h,
    fun fuel a b h1 h2 => riverWalk_localmin h3 (buildHeightMap cells) seaLevel fuel a b h1 h2,
    fun hne => simulateRivers_eq_biUnion h3 cells seaLevel rng hne,
    fun i s => by rw [Finset.union_assoc, Finset.union_self]⟩

/-- Claim C7 witness: on the concrete one-cell world, a walk starting at
sea level marks nothing, and the river set is the union of the trials'
visited sets. -/
theorem riverWalk_termination_and_union_witness :
    riverWalk oneCellH3 (buildHeightMap [cellA]) 0 100 "a" 0 = [] ∧
    simulateRivers oneCellH3 [cellA] 0 zeroRng =
      (Finset.range 50).biUnion (fun i =>
        ((trialVisit oneCellH3 (buildHeightMap [cellA]) 0 (riverCandidates [cellA] 0)
          zeroRng i).map Prod.fst).toFinset) := by
  obtain ⟨h1, h2, h3, h4, h5, h6⟩ := riverWalk_termination_and_union oneCellH3 [cellA] 0 zeroRng
  exact ⟨h3 100 "a" 0 le_rfl, h5 (by with_unfolding_all decide)⟩

/-- Claim C10: every cell id in the returned river set names a cell of the
elevation pass whose elevation is strictly above sea level (the walk's
guard checks the elevation before marking, so a terminal cell at or below
sea level is never added). -/
theorem simulateRivers_above_seaLevel :
    ∀ (h3 : H3Lib) (cells : List CellInfo) (seaLevel : ℚ) (rng : ℕ → ℚ),
      (∀ i, 0 ≤ rng i ∧ rng i < 1) →
      ∀ cid ∈ simulateRivers h3 cells seaLevel rng,
        cid ∈ (cells.filter (fun c => decide (seaLevel < c.height))).map CellInfo.h3Index := by
  intro h3 cells seaLevel rng hrng cid hcid
  by_cases hne : riverCandidates cells seaLevel = []
  · rw [show simulateRivers h3 cells seaLevel rng = ∅ by simp [simulateRivers, hne]] at hcid
    exact absurd hcid (by simp)
  · rw [simulateRivers_eq_biUnion h3 cells seaLevel rng hne, Finset.mem_biUnion] at hcid
    obtain ⟨i, _, hmem⟩ := hcid
    rw [List.mem_toFinset, List.mem_map] at hmem
    obtain ⟨p, hp, rfl⟩ := hmem
    unfold trialVisit at hp
    obtain ⟨habove, hsrc⟩ := riverWalk_mem h3 (buildHeightMap cells) seaLevel 100
      (trialStart (riverCandidates cells seaLevel) (rng i)).h3Index
      (trialStart (riverCandidates cells seaLevel) (rng i)).height p hp
    rcases hsrc with rfl | hhm
    · have hstart := trialStart_mem (riverCandidates cells seaLevel) (rng i) hne
        (hrng i).1 (hrng i).2
      have hcells : trialStart (riverCandidates cells seaLevel) (rng i) ∈ cells :=
        List.mem_of_mem_filter hstart
      refine List.mem_map.mpr ⟨trialStart (riverCandidates cells seaLevel) (rng i), ?_, rfl⟩
      rw [List.mem_filter]
      exact ⟨hcells, by simpa using habove⟩
    · obtain ⟨c, hc, hck, hcv⟩ := buildHeightMap_some cells p.1 p.2 hhm
      refine List.mem_map.mpr ⟨c, ?_, hck⟩
      rw [List.mem_filter]
      refine ⟨hc, ?_⟩
      rw [hcv]
      simpa using habove

/-- Claim C10 witness: on the concrete one-cell world the single river
cell id names a cell above sea level. -/
theorem simulateRivers_above_seaLevel_witness :
    "a" ∈ ([cellA].filter (fun c => decide ((0:ℚ) < c.height))).map CellInfo.h3Index :=
  simulateRivers_above_seaLevel oneCellH3 [cellA] 0 zeroRng
    (fun _ => ⟨le_refl 0, by norm_num [zeroRng]⟩) "a" (by with_unfolding_all decide)
